import Mathlib

/-!
Verification of the Covalt bootstrap core (src/src-tauri/src/lib.rs and
src/src-tauri/src/main.rs) against its natural-language specification.

The Rust code is shallowly embedded: pure functions become Lean functions,
and the interaction of `main` with the OS (environment variables, the resource
directory query, the embedded interpreter build/run) is modelled by an
explicit `World` record supplying the outcome of each external call, with
`main` producing a trace of host-side events plus an outcome.
-/

namespace Covalt

/-! ## lib.rs -/

/-- Embedding of `greet` (lib.rs lines 4-7): the format call has one
positional placeholder, which splices `name` verbatim between the two
fixed pieces; no character of `name` is interpreted as a directive. -/
def greet (name : String) : String :=
  "Hello, " ++ name ++ "! You\x27ve been greeted from Rust!"

/-- Embedding of `tauri::Context` as produced by `tauri::generate_context!()`:
a value derived from build-time application metadata, baked into the binary
at compile time.  We model it as a record carrying that (fixed) metadata. -/
structure Context where
  packageInfo : String
deriving DecidableEq, Repr

/-- Embedding of `tauri_generate_context` (lib.rs lines 10-12): returns the
compiled-in context constant produced by the `generate_context!` macro. -/
def tauri_generate_context : Context :=
  { packageInfo := "agno-desktop" }

/-- Embedding of `tauri::Builder` restricted to what the code configures:
the ordered list of installed plugins and the invoke-handler table mapping
command names to handlers (every command in this program is
`String → String`). -/
structure Builder where
  plugins : List String
  commands : List (String × (String → String))

/-- `tauri::Builder::default()`: no plugins, empty handler table. -/
def Builder.default : Builder :=
  { plugins := [], commands := [] }

/-- `Builder::plugin`: appends one plugin. -/
def Builder.plugin (b : Builder) (p : String) : Builder :=
  { b with plugins := b.plugins ++ [p] }

/-- `Builder::invoke_handler`: installs the command table. -/
def Builder.invoke_handler (b : Builder) (h : List (String × (String → String))) : Builder :=
  { b with commands := h }

/-- `tauri::generate_handler![greet]`: the handler table registering exactly
the command `greet`, dispatching to the `greet` function. -/
def generate_handler_greet : List (String × (String → String)) :=
  [("greet", greet)]

/-- Embedding of the `context_factory` closure passed to
`pytauri::pymodule_export` (lib.rs line 25): `|_args, _kwargs|
Ok(tauri_generate_context())`.  Positional and keyword arguments are
accepted and discarded. -/
def context_factory (_args : List String) (_kwargs : List (String × String)) : Context :=
  tauri_generate_context

/-- Embedding of the `builder_factory` closure passed to
`pytauri::pymodule_export` (lib.rs lines 27-32): builds a fresh
`tauri::Builder::default()` with the opener plugin and the `greet` handler
table.  Positional and keyword arguments are accepted and discarded. -/
def builder_factory (_args : List String) (_kwargs : List (String × String)) : Builder :=
  (Builder.default.plugin "opener").invoke_handler generate_handler_greet

/-! ## main.rs -/

/-- Embedding of `pytauri::standalone::PythonInterpreterEnv` (the two
variants used by `main`): `Venv` is the DevVenv of the spec, `Standalone` is
the StandaloneBundle of the spec. -/
inductive PythonInterpreterEnv where
  | Venv (path : String)
  | Standalone (path : String)
deriving DecidableEq, Repr

/-- Embedding of `std::env::VarError`, the error type of `std::env::var`. -/
inductive VarError where
  | notPresent
  | notUnicode (lossy : String)
deriving DecidableEq, Repr

/-- The `Display` rendering of `std::env::VarError`, as interpolated by
the err interpolation in the error message of `main`. -/
def VarError.display : VarError → String
  | .notPresent => "environment variable not found"
  | .notUnicode lossy => "environment variable was not valid unicode: " ++ lossy

/-- The error message built in `main` (main.rs lines 18-23) when
`var("VIRTUAL_ENV")` fails; the Rust string literal uses a trailing
backslash continuation, producing this single line with `{err}` at the
end. -/
def devErrMsg (err : String) : String :=
  "The app is running in tauri dev mode, please activate the python virtual environment first or set the \x60VIRTUAL_ENV\x60 environment variable: " ++ err

/-- The error message built in `main` (main.rs line 28) when
`resource_dir` fails. -/
def resourceDirErrMsg (err : String) : String :=
  "failed to get resource dir: " ++ err

/-- The outcomes of the external calls `main` performs, supplied by the
surrounding world: the result of reading `VIRTUAL_ENV`, the result of the
`resource_dir` metadata query, whether `PythonInterpreterBuilder::build`
succeeds for a given environment descriptor, the internal host-side events
build performs, and the exit code `interpreter.run()` reports. -/
structure World where
  virtualEnvResult : Except VarError String
  resourceDirResult : Except String String
  buildResult : PythonInterpreterEnv → Except String Unit
  runExit : Int

/-- Embedding of the environment-resolution block of `main`
(main.rs lines 16-31), the resolve operation of the EnvironmentResolver in the spec.
`dev` is the compile-time `cfg!(dev)` flag; `simplified` is the path
normalization routine `dunce::simplified` (an external collaborator,
passed in abstractly); `w` supplies the outcomes of the external calls. -/
def resolvePyEnv (dev : Bool) (simplified : String → String) (w : World) :
    Except String PythonInterpreterEnv :=
  if dev then
    match w.virtualEnvResult with
    | .error err => .error (devErrMsg err.display)
    | .ok venvDir => .ok (.Venv venvDir)
  else
    match w.resourceDirResult with
    | .error err => .error (resourceDirErrMsg err)
    | .ok rd => .ok (.Standalone (simplified rd))

/-- Host-side events observable during a run of `main`, in program order. -/
inductive Event where
  | readEnvVar (name : String)
  | queryResourceDir
  | builderNew
  | moduleHookInvoked
  | interpreterBuilt
  | interpreterRun
  | processExit (code : Int)
deriving DecidableEq, Repr

/-- The single external query the resolution block performs, determined by
the compile-time `cfg!(dev)` flag alone (main.rs line 16). -/
def resolveQuery (dev : Bool) : Event :=
  if dev then .readEnvVar "VIRTUAL_ENV" else .queryResourceDir

/-- How `main` terminates: `exited c` is `std::process::exit(c)`;
`errored msg` is an `Err` propagated out of `main` by `?` (the Rust
runtime prints it to stderr and exits with code 1).  the success type of `main`
is `Infallible`, so there is no constructor for a normal `Ok` return. -/
inductive MainOutcome where
  | exited (code : Int)
  | errored (msg : String)
deriving DecidableEq, Repr

/-- The process exit code each outcome produces: `std::process::exit(c)`
exits with `c`; a `Result::Err` return from `main` exits with 1. -/
def MainOutcome.exitCode : MainOutcome → Int
  | .exited c => c
  | .errored _ => 1

/-- Embedding of `main` (main.rs lines 14-41) as a trace of host-side
events plus an outcome.  The resolution block runs first; on failure `?`
leaves `main` immediately.  On success `PythonInterpreterBuilder::new` is
reached (`builderNew`), the module hook is installed and invoked while the
interpreter is built (`moduleHookInvoked`, `interpreterBuilt`); a build
failure again leaves `main` by `?`.  Otherwise `interpreter.run()` blocks
until the script finishes and `std::process::exit` is called with its
code, the final host action. -/
def mainTrace (dev : Bool) (simplified : String → String) (w : World) :
    List Event × MainOutcome :=
  match resolvePyEnv dev simplified w with
  | .error e => ([resolveQuery dev], .errored e)
  | .ok pyEnv =>
    match w.buildResult pyEnv with
    | .error e =>
      ([resolveQuery dev, .builderNew, .moduleHookInvoked], .errored e)
    | .ok _ =>
      ([resolveQuery dev, .builderNew, .moduleHookInvoked, .interpreterBuilt,
        .interpreterRun, .processExit w.runExit],
       .exited w.runExit)

/-- `sub` occurs verbatim as a contiguous substring of `s`. -/
def ContainsStr (s sub : String) : Prop :=
  ∃ a b, s = a ++ sub ++ b

/-! ## Concrete worlds used to witness the conditional theorems -/

/-- A development run with an activated virtual environment. -/
def wDev : World :=
  { virtualEnvResult := .ok "/home/dev/venv"
    resourceDirResult := .ok "/usr/lib/app/resources"
    buildResult := fun _ => .ok ()
    runExit := 7 }

/-- A development run with `VIRTUAL_ENV` unset. -/
def wDevUnset : World :=
  { virtualEnvResult := .error .notPresent
    resourceDirResult := .ok "/usr/lib/app/resources"
    buildResult := fun _ => .ok ()
    runExit := 0 }

/-- A standalone run whose resource-directory query fails. -/
def wStandaloneFail : World :=
  { virtualEnvResult := .error .notPresent
    resourceDirResult := .error "resource dir not found"
    buildResult := fun _ => .ok ()
    runExit := 0 }

/-- A standalone run whose resource-directory query succeeds. -/
def wStandaloneOk : World :=
  { virtualEnvResult := .error .notPresent
    resourceDirResult := .ok "/usr/lib/app/resources"
    buildResult := fun _ => .ok ()
    runExit := 0 }

/-! ## Claims -/

/-- C1: for every input string `s`, `greet` returns
`"Hello, " ++ s ++ "! You\x27ve been greeted from Rust!"`, splicing `s`
verbatim exactly once between the fixed prefix and suffix; in particular
on `"World"`, on the empty string, and on inputs containing a percent-s
or a brace pair, which appear in the output unchanged (no
formatting-directive interpretation). -/
theorem greet_embeds_input_verbatim (s : String) :
    greet s = "Hello, " ++ s ++ "! You\x27ve been greeted from Rust!" ∧
    greet "World" = "Hello, World! You\x27ve been greeted from Rust!" ∧
    greet "" = "Hello, ! You\x27ve been greeted from Rust!" ∧
    greet "%s" = "Hello, %s! You\x27ve been greeted from Rust!" ∧
    greet "\x7b\x7d" = "Hello, \x7b\x7d! You\x27ve been greeted from Rust!" :=
  ⟨rfl, rfl, rfl, rfl, rfl⟩

/-- C2: in development mode with `VIRTUAL_ENV` unset, resolution fails
with a configuration error whose message names `VIRTUAL_ENV` and
instructs the operator to activate the python virtual environment or set
the variable explicitly. -/
theorem resolve_dev_unset_fails (simplified : String → String) (w : World)
    (h : w.virtualEnvResult = .error .notPresent) :
    ∃ msg, resolvePyEnv true simplified w = .error msg ∧
      ContainsStr msg "VIRTUAL_ENV" ∧
      ContainsStr msg "please activate the python virtual environment first" ∧
      ContainsStr msg "or set the \x60VIRTUAL_ENV\x60 environment variable" := by
  refine ⟨devErrMsg VarError.notPresent.display, by simp [resolvePyEnv, h], ?_, ?_, ?_⟩
  · exact ⟨"The app is running in tauri dev mode, please activate the python virtual environment first or set the \x60",
      "\x60 environment variable: environment variable not found", rfl⟩
  · exact ⟨"The app is running in tauri dev mode, ",
      " or set the \x60VIRTUAL_ENV\x60 environment variable: environment variable not found", rfl⟩
  · exact ⟨"The app is running in tauri dev mode, please activate the python virtual environment first ",
      ": environment variable not found", rfl⟩

/-- Witness for C2 at the concrete world `wDevUnset`. -/
theorem resolve_dev_unset_fails_witness :
    ∃ msg, resolvePyEnv true id wDevUnset = .error msg ∧
      ContainsStr msg "VIRTUAL_ENV" ∧
      ContainsStr msg "please activate the python virtual environment first" ∧
      ContainsStr msg "or set the \x60VIRTUAL_ENV\x60 environment variable" :=
  resolve_dev_unset_fails id wDevUnset rfl

/-- C3: in development mode with `VIRTUAL_ENV` set to `p`, resolution
succeeds with the `Venv` (DevVenv) variant carrying exactly `p`, and
never returns the `Standalone` (StandaloneBundle) variant. -/
theorem resolve_dev_set_returns_venv (simplified : String → String) (w : World)
    (p : String) (h : w.virtualEnvResult = .ok p) :
    resolvePyEnv true simplified w = .ok (.Venv p) ∧
    ∀ q, resolvePyEnv true simplified w ≠ .ok (.Standalone q) := by
  constructor
  · simp [resolvePyEnv, h]
  · intro q hq
    simp [resolvePyEnv, h] at hq

/-- Witness for C3 at the concrete world `wDev`. -/
theorem resolve_dev_set_returns_venv_witness :
    resolvePyEnv true id wDev = .ok (.Venv "/home/dev/venv") ∧
    ∀ q, resolvePyEnv true id wDev ≠ .ok (.Standalone q) :=
  resolve_dev_set_returns_venv id wDev "/home/dev/venv" rfl

/-- C4: in standalone mode, for every resource-directory path the
platform query returns, resolution applies the `simplified` path
normalization to that path and wraps the normalized result as
`Standalone` (StandaloneBundle) — for every normalization function, i.e.
the normalization step is never skipped. -/
theorem resolve_standalone_applies_simplified (simplified : String → String)
    (w : World) (rd : String) (h : w.resourceDirResult = .ok rd) :
    resolvePyEnv false simplified w = .ok (.Standalone (simplified rd)) := by
  simp [resolvePyEnv, h]

/-- Witness for C4 at the concrete world `wStandaloneOk`, with a
normalization function that visibly rewrites the path. -/
theorem resolve_standalone_applies_simplified_witness :
    resolvePyEnv false (fun p => "norm:" ++ p) wStandaloneOk =
      .ok (.Standalone "norm:/usr/lib/app/resources") :=
  resolve_standalone_applies_simplified (fun p => "norm:" ++ p) wStandaloneOk
    "/usr/lib/app/resources" rfl

/-- C5: in standalone mode, if the resource-directory query fails, `main`
stops at resolution with the propagated configuration error — no builder
is constructed, no interpreter is built, and the process exit code is
non-zero; and whenever the query succeeds, the result is wrapped as
`Standalone` (StandaloneBundle). -/
theorem standalone_query_failure_fatal (simplified : String → String)
    (w : World) (e : String) (h : w.resourceDirResult = .error e) :
    mainTrace false simplified w =
      ([.queryResourceDir], .errored (resourceDirErrMsg e)) ∧
    MainOutcome.exitCode (mainTrace false simplified w).2 ≠ 0 ∧
    Event.builderNew ∉ (mainTrace false simplified w).1 ∧
    Event.interpreterBuilt ∉ (mainTrace false simplified w).1 ∧
    ∀ w2 rd, w2.resourceDirResult = .ok rd →
      resolvePyEnv false simplified w2 = .ok (.Standalone (simplified rd)) := by
  have ht : mainTrace false simplified w =
      ([.queryResourceDir], .errored (resourceDirErrMsg e)) := by
    simp [mainTrace, resolvePyEnv, h, resolveQuery]
  refine ⟨ht, ?_, ?_, ?_, ?_⟩
  · rw [ht]; simp [MainOutcome.exitCode]
  · rw [ht]; simp
  · rw [ht]; simp
  · intro w2 rd h2; simp [resolvePyEnv, h2]

/-- Witness for C5 at the concrete world `wStandaloneFail`. -/
theorem standalone_query_failure_fatal_witness :
    mainTrace false id wStandaloneFail =
      ([.queryResourceDir], .errored (resourceDirErrMsg "resource dir not found")) ∧
    MainOutcome.exitCode (mainTrace false id wStandaloneFail).2 ≠ 0 ∧
    Event.builderNew ∉ (mainTrace false id wStandaloneFail).1 ∧
    Event.interpreterBuilt ∉ (mainTrace false id wStandaloneFail).1 ∧
    ∀ w2 rd, w2.resourceDirResult = .ok rd →
      resolvePyEnv false id w2 = .ok (.Standalone (id rd)) :=
  standalone_query_failure_fatal id wStandaloneFail "resource dir not found" rfl

/-- C6: any two calls to `builder_factory`, with any discarded arguments,
produce builders that are structurally equal in behavior: the same plugin
list (exactly the opener plugin), the same handler table exposing exactly
the command name `greet`, whose handler is the `greet` function itself in
both — identical handler behavior.  Freshness of the instances and
absence of shared mutable state hold by construction in the embedding:
each call builds its value from `Builder.default` and no global mutable
state exists. -/
theorem builder_factory_structurally_equal (a1 a2 : List String)
    (k1 k2 : List (String × String)) :
    (builder_factory a1 k1).plugins = (builder_factory a2 k2).plugins ∧
    (builder_factory a1 k1).commands = (builder_factory a2 k2).commands ∧
    (builder_factory a1 k1).plugins = ["opener"] ∧
    (builder_factory a1 k1).commands = [("greet", greet)] ∧
    (builder_factory a1 k1).commands.map Prod.fst = ["greet"] :=
  ⟨rfl, rfl, rfl, rfl, rfl⟩

/-- C7: `context_factory` returns the compiled-in context constant
`tauri_generate_context` on every call, ignoring its arguments: any two
calls return identical values. -/
theorem context_factory_constant_across_calls (a1 a2 : List String)
    (k1 k2 : List (String × String)) :
    context_factory a1 k1 = context_factory a2 k2 ∧
    context_factory a1 k1 = tauri_generate_context :=
  ⟨rfl, rfl⟩

/-- C8: whenever `main` terminates through `interpreter.run()` with exit
code `c`, that code is exactly the one `run` reported, `processExit c` is
the final host-side action of the trace, the process exit code equals
`c`, and `MainOutcome` (whose success type mirrors `Infallible`) admits
no normal-return outcome: every outcome is an explicit exit or a
propagated error. -/
theorem run_exit_code_is_final_action (dev : Bool) (simplified : String → String)
    (w : World) (c : Int) (h : (mainTrace dev simplified w).2 = .exited c) :
    c = w.runExit ∧
    (mainTrace dev simplified w).1.getLast? = some (.processExit c) ∧
    MainOutcome.exitCode (mainTrace dev simplified w).2 = c ∧
    ∀ o : MainOutcome, (∃ k, o = .exited k) ∨ ∃ m, o = .errored m := by
  cases hr : resolvePyEnv dev simplified w with
  | error e =>
    have ht : mainTrace dev simplified w = ([resolveQuery dev], .errored e) := by
      simp [mainTrace, hr]
    rw [ht] at h
    exact absurd h (by simp)
  | ok env =>
    cases hb : w.buildResult env with
    | error e =>
      have ht : mainTrace dev simplified w =
          ([resolveQuery dev, .builderNew, .moduleHookInvoked], .errored e) := by
        simp [mainTrace, hr, hb]
      rw [ht] at h
      exact absurd h (by simp)
    | ok u =>
      have ht : mainTrace dev simplified w =
          ([resolveQuery dev, .builderNew, .moduleHookInvoked, .interpreterBuilt,
            .interpreterRun, .processExit w.runExit], .exited w.runExit) := by
        simp [mainTrace, hr, hb]
      rw [ht] at h ⊢
      have hc : w.runExit = c := by simpa using h
      subst hc
      refine ⟨rfl, by simp, rfl, ?_⟩
      intro o
      cases o with
      | exited k => exact .inl ⟨k, rfl⟩
      | errored m => exact .inr ⟨m, rfl⟩

/-- Witness for C8 at the concrete world `wDev`, whose run reports 7. -/
theorem run_exit_code_is_final_action_witness :
    (7 : Int) = wDev.runExit ∧
    (mainTrace true id wDev).1.getLast? = some (.processExit 7) ∧
    MainOutcome.exitCode (mainTrace true id wDev).2 = 7 ∧
    ∀ o : MainOutcome, (∃ k, o = .exited k) ∨ ∃ m, o = .errored m :=
  run_exit_code_is_final_action true id wDev 7 rfl

/-- C9: in development mode with `VIRTUAL_ENV` unset, `main` stops at
resolution: the trace holds only the environment-variable read, the
module hook is never invoked, `PythonInterpreterBuilder::new` and the
interpreter build are never reached, and the process exits non-zero. -/
theorem dev_unset_exits_without_hook (simplified : String → String) (w : World)
    (h : w.virtualEnvResult = .error .notPresent) :
    mainTrace true simplified w =
      ([.readEnvVar "VIRTUAL_ENV"],
       .errored (devErrMsg VarError.notPresent.display)) ∧
    MainOutcome.exitCode (mainTrace true simplified w).2 ≠ 0 ∧
    Event.moduleHookInvoked ∉ (mainTrace true simplified w).1 ∧
    Event.builderNew ∉ (mainTrace true simplified w).1 ∧
    Event.interpreterBuilt ∉ (mainTrace true simplified w).1 := by
  have ht : mainTrace true simplified w =
      ([.readEnvVar "VIRTUAL_ENV"],
       .errored (devErrMsg VarError.notPresent.display)) := by
    simp [mainTrace, resolvePyEnv, h, resolveQuery]
  refine ⟨ht, ?_, ?_, ?_, ?_⟩
  · rw [ht]; simp [MainOutcome.exitCode]
  · rw [ht]; simp
  · rw [ht]; simp
  · rw [ht]; simp

/-- Witness for C9 at the concrete world `wDevUnset`. -/
theorem dev_unset_exits_without_hook_witness :
    mainTrace true id wDevUnset =
      ([.readEnvVar "VIRTUAL_ENV"],
       .errored (devErrMsg VarError.notPresent.display)) ∧
    MainOutcome.exitCode (mainTrace true id wDevUnset).2 ≠ 0 ∧
    Event.moduleHookInvoked ∉ (mainTrace true id wDevUnset).1 ∧
    Event.builderNew ∉ (mainTrace true id wDevUnset).1 ∧
    Event.interpreterBuilt ∉ (mainTrace true id wDevUnset).1 :=
  dev_unset_exits_without_hook id wDevUnset rfl

/-- C10: the dev/standalone choice is the compile-time flag `dev` alone:
for a fixed build, every run performs the same single resolution query —
the `VIRTUAL_ENV` read in a dev build, the resource-directory query in a
non-dev build — independent of the runtime world. -/
theorem branch_fixed_by_build_config (dev : Bool) (s1 s2 : String → String)
    (w1 w2 : World) :
    (mainTrace dev s1 w1).1.head? = some (resolveQuery dev) ∧
    (mainTrace dev s1 w1).1.head? = (mainTrace dev s2 w2).1.head? ∧
    resolveQuery true = .readEnvVar "VIRTUAL_ENV" ∧
    resolveQuery false = .queryResourceDir := by
  have key : ∀ (s : String → String) (w : World),
      (mainTrace dev s w).1.head? = some (resolveQuery dev) := by
    intro s w
    cases hr : resolvePyEnv dev s w with
    | error e => simp [mainTrace, hr]
    | ok env => cases hb : w.buildResult env <;> simp [mainTrace, hr, hb]
  exact ⟨key s1 w1, by rw [key s1 w1, key s2 w2], rfl, rfl⟩

end Covalt
